import Mathlib

/-!
Verification of the maintenance-scoring component of the pypi-search MCP
server (src/MCP/pypi-search/src/index.ts).

Modelling conventions:
* Timestamps are integers (milliseconds since the Unix epoch), as produced
  by JavaScript `Date.getTime()`.
* The string-to-timestamp conversion performed by `new Date(dateString)` is
  an explicit parameter `parse : String → Int`; all theorems are quantified
  over it.  The ambient wall-clock read `new Date()` is the explicit
  parameter `now : Int`.
* JavaScript number arithmetic is modelled exactly over `ℚ`;
  `Math.round` is `jsRound` (floor of x + 1/2, JavaScript's half-up rule).
-/

namespace PyPISearch

/-- A release-history record `{ version, date }` as built by
`getPackageDetails` and consumed by `calculateMaintenanceScore`. -/
structure ReleaseRecord where
  version : String
  date : String
deriving DecidableEq, Repr

/-- One release-file entry of the registry response
(`releases[version][i]` in `PyPIPackageInfo`). -/
structure FileInfo where
  upload_time : String
  filename : String
  python_version : String
deriving DecidableEq, Repr

/-- The `info` object of the registry's package response. -/
structure PackageInfoData where
  name : String
  version : String
  summary : String
  description : String
  author : String
  license : String
  project_urls : List (String × String)
  home_page : String
deriving DecidableEq, Repr

/-- The registry's package response (`PyPIPackageInfo`): metadata plus the
per-version lists of release files.  JavaScript's `Object.entries` order is
modelled by keeping `releases` as an association list. -/
structure PyPIPackageInfo where
  info : PackageInfoData
  releases : List (String × List FileInfo)
deriving DecidableEq, Repr

/-- The shaped result of `getPackageDetails` (`PackageDetails`). -/
structure PackageDetails where
  name : String
  version : String
  summary : String
  description : String
  author : String
  license : String
  homepage : String
  repository : String
  lastRelease : String
  releaseHistory : List ReleaseRecord
  maintenanceScore : Int
  maintenanceStatus : String
deriving DecidableEq, Repr

/-- `1000 * 60 * 60 * 24 * 30`: the milliseconds-per-month divisor used in
`calculateMaintenanceScore`. -/
def msPerMonth : Int := 1000 * 60 * 60 * 24 * 30

/-- `365 * 24 * 60 * 60 * 1000`: the milliseconds subtracted from `now` to
obtain `oneYearAgo` in `calculateMaintenanceScore`. -/
def msPerYear : Int := 365 * 24 * 60 * 60 * 1000

/-- JavaScript `Math.round`: the nearest integer, half-way cases rounded
toward positive infinity, i.e. `⌊x + 1/2⌋`. -/
def jsRound (x : ℚ) : Int := Rat.floor (x + 1/2)

/-- Embedding of `calculateMaintenanceScore` (index.ts lines 130–150):

    if (releaseHistory.length === 0) return 0;
    const monthsSinceLastRelease =
      (now - lastRelease) / (1000 * 60 * 60 * 24 * 30);
    const oneYearAgo = now - 365 * 24 * 60 * 60 * 1000;
    const releasesLastYear =
      releaseHistory.filter(r => new Date(r.date) > oneYearAgo).length;
    const recencyScore = Math.max(0, 50 - monthsSinceLastRelease * 2);
    const frequencyScore = Math.min(50, releasesLastYear * 5);
    return Math.round(recencyScore + frequencyScore);
-/
def calculateMaintenanceScore (parse : String → Int) (now : Int)
    (releaseHistory : List ReleaseRecord) : Int :=
  match releaseHistory with
  | [] => 0
  | first :: _ =>
    let lastRelease : Int := parse first.date
    let monthsSinceLastRelease : ℚ := ((now - lastRelease : Int) : ℚ) / (msPerMonth : ℚ)
    let oneYearAgo : Int := now - msPerYear
    let releasesLastYear : Nat :=
      (releaseHistory.filter (fun r => oneYearAgo < parse r.date)).length
    let recencyScore : ℚ := max 0 (50 - monthsSinceLastRelease * 2)
    let frequencyScore : ℚ := min 50 ((releasesLastYear : ℚ) * 5)
    jsRound (recencyScore + frequencyScore)

/-- Embedding of `getMaintenanceStatus` (index.ts lines 152–158). -/
def getMaintenanceStatus (score : Int) : String :=
  if score ≥ 80 then "Actively maintained"
  else if score ≥ 60 then "Regularly maintained"
  else if score ≥ 40 then "Occasionally maintained"
  else if score ≥ 20 then "Minimally maintained"
  else "Poorly maintained"

/-- The release-history construction inside `getPackageDetails`
(index.ts lines 190–197): flatten `Object.entries(info.releases)` into one
`{ version, date }` record per release file, then sort by
`(a, b) => new Date(b.date).getTime() - new Date(a.date).getTime()`,
i.e. descending by parsed timestamp (JavaScript sort is stable). -/
def buildReleaseHistory (parse : String → Int)
    (releases : List (String × List FileInfo)) : List ReleaseRecord :=
  (releases.flatMap (fun p =>
      p.2.map (fun release => { version := p.1, date := release.upload_time })))
    |>.mergeSort (fun a b => parse b.date ≤ parse a.date)

/-- Embedding of `getPackageDetails` (index.ts lines 186–215), starting from
an already-fetched registry response. -/
def getPackageDetails (parse : String → Int) (now : Int)
    (info : PyPIPackageInfo) : PackageDetails :=
  let releaseHistory := buildReleaseHistory parse info.releases
  let maintenanceScore := calculateMaintenanceScore parse now releaseHistory
  { name := info.info.name
    version := info.info.version
    summary := info.info.summary
    description := info.info.description
    author := info.info.author
    license := info.info.license
    homepage := if info.info.home_page = "" then "" else info.info.home_page
    repository :=
      let src := ((info.info.project_urls.lookup "Source").getD "")
      if src = "" then ((info.info.project_urls.lookup "Repository").getD "") else src
    lastRelease :=
      match releaseHistory.head? with
      | some r => if r.date = "" then "No releases found" else r.date
      | none => "No releases found"
    releaseHistory := releaseHistory.take 10
    maintenanceScore := maintenanceScore
    maintenanceStatus := getMaintenanceStatus maintenanceScore }

/-- The (score, label) pair an invocation of the scorer followed by the
status mapping produces. -/
def scoreAndStatus (parse : String → Int) (now : Int)
    (releaseHistory : List ReleaseRecord) : Int × String :=
  let s := calculateMaintenanceScore parse now releaseHistory
  (s, getMaintenanceStatus s)

/-- Spec wording: `monthsSinceLastRelease` = (now − timestamp of most recent
record) measured in months, one month = 30 days of wall-clock time,
fractional values allowed. -/
def specMonthsSinceLastRelease (now ts : Int) : ℚ :=
  ((now - ts : Int) : ℚ) / ((30 * 24 * 60 * 60 * 1000 : Int) : ℚ)

/-- Spec wording: `releasesLastYear` = count of records whose timestamp is
strictly greater than (now − 365 days). -/
def specReleasesLastYear (parse : String → Int) (now : Int)
    (hist : List ReleaseRecord) : Nat :=
  (hist.filter (fun r => now - 365 * 24 * 60 * 60 * 1000 < parse r.date)).length

/-- Spec wording: history sorted descending by (parsed) timestamp, most
recent first. -/
def sortedDescending (parse : String → Int) (hist : List ReleaseRecord) : Prop :=
  hist.Pairwise (fun a b => parse b.date ≤ parse a.date)

/-- Timestamp table used for concrete inputs: maps a symbolic date string to
an offset in milliseconds relative to a current instant of `0`. -/
def tsTable : String → Int := fun s =>
  if s = "now" then 0
  else if s = "daysAgo1" then -86400000
  else if s = "daysAgo2" then -172800000
  else if s = "daysAgo3" then -259200000
  else if s = "daysAgo4" then -345600000
  else if s = "daysAgo5" then -432000000
  else if s = "daysAgo6" then -518400000
  else if s = "daysAgo7" then -604800000
  else if s = "daysAgo8" then -691200000
  else if s = "daysAgo9" then -777600000
  else if s = "daysAgo30" then -2592000000
  else if s = "daysAgo60" then -5184000000
  else if s = "daysAgo90" then -7776000000
  else if s = "daysAgo100" then -8640000000
  else if s = "daysAgo390" then -33696000000
  else if s = "daysAgo900" then -77760000000
  else if s = "in100Months" then 259200000000
  else 0

/-- Most recent release exactly at the current instant, ten releases inside
the trailing year. -/
def histActive : List ReleaseRecord :=
  [{ version := "v10", date := "now" }, { version := "v9", date := "daysAgo1" },
   { version := "v8", date := "daysAgo2" }, { version := "v7", date := "daysAgo3" },
   { version := "v6", date := "daysAgo4" }, { version := "v5", date := "daysAgo5" },
   { version := "v4", date := "daysAgo6" }, { version := "v3", date := "daysAgo7" },
   { version := "v2", date := "daysAgo8" }, { version := "v1", date := "daysAgo9" }]

/-- A single release thirty months (900 days) before the current instant. -/
def histStale : List ReleaseRecord := [{ version := "1.0", date := "daysAgo900" }]

/-- Most recent release one month (30 days) ago, three releases inside the
trailing year. -/
def histRegular : List ReleaseRecord :=
  [{ version := "1.2", date := "daysAgo30" }, { version := "1.1", date := "daysAgo60" },
   { version := "1.0", date := "daysAgo90" }]

/-- A history whose record treated as most recent by the code (its first
element, `releaseHistory[0]`) is thirteen months (390 days) old, while one
record lies inside the trailing year. -/
def histMinimal : List ReleaseRecord :=
  [{ version := "1.1", date := "daysAgo390" }, { version := "1.0", date := "daysAgo100" }]

/-- A registry response with no releases. -/
def infoEmpty : PyPIPackageInfo :=
  { info := { name := "pkg", version := "0.0.0", summary := "", description := "",
              author := "", license := "", project_urls := [], home_page := "" },
    releases := [] }

theorem jsRound_eq_floor (x : ℚ) : jsRound x = ⌊x + 1/2⌋ := by
  rw [jsRound, Rat.floor_def', ← Rat.floor_def]

theorem jsRound_mono {x y : ℚ} (h : x ≤ y) : jsRound x ≤ jsRound y := by
  rw [jsRound_eq_floor, jsRound_eq_floor]
  exact Int.floor_mono (by linarith)

theorem jsRound_nonneg {x : ℚ} (h : 0 ≤ x) : 0 ≤ jsRound x := by
  rw [jsRound_eq_floor]
  exact Int.le_floor.2 (by push_cast; linarith)

theorem jsRound_le_100 {x : ℚ} (h : x ≤ 100) : jsRound x ≤ 100 := by
  rw [jsRound_eq_floor]
  have := Int.floor_lt.2 (show x + 1/2 < ((101 : Int) : ℚ) by push_cast; linarith)
  omega

theorem msPerMonth_pos : 0 < msPerMonth := by norm_num [msPerMonth]

theorem msPerYear_pos : 0 < msPerYear := by norm_num [msPerYear]

theorem calculateMaintenanceScore_cons (parse : String → Int) (now : Int)
    (first : ReleaseRecord) (rest : List ReleaseRecord) :
    calculateMaintenanceScore parse now (first :: rest) =
      jsRound (max 0 (50 - ((now - parse first.date : Int) : ℚ) / (msPerMonth : ℚ) * 2) +
        min 50 ((((first :: rest).filter
          (fun r => now - msPerYear < parse r.date)).length : ℚ) * 5)) := rfl

theorem score_le_score (parse : String → Int) (now : Int)
    (a b : ReleaseRecord) (ra rb : List ReleaseRecord)
    (hrec : parse b.date ≤ parse a.date)
    (hcnt : ((b :: rb).filter (fun r => now - msPerYear < parse r.date)).length ≤
      ((a :: ra).filter (fun r => now - msPerYear < parse r.date)).length) :
    calculateMaintenanceScore parse now (b :: rb) ≤
      calculateMaintenanceScore parse now (a :: ra) := by
  rw [calculateMaintenanceScore_cons, calculateMaintenanceScore_cons]
  apply jsRound_mono
  have hM : (0 : ℚ) < (msPerMonth : ℚ) := by exact_mod_cast msPerMonth_pos
  apply add_le_add
  · apply max_le_max le_rfl
    have hsub : ((now - parse a.date : Int) : ℚ) ≤ ((now - parse b.date : Int) : ℚ) := by
      exact_mod_cast sub_le_sub_left hrec now
    have hdiv := (div_le_div_iff_of_pos_right hM).2 hsub
    linarith
  · apply min_le_min le_rfl
    have : ((((b :: rb).filter (fun r => now - msPerYear < parse r.date)).length : ℚ)) ≤
        (((a :: ra).filter (fun r => now - msPerYear < parse r.date)).length : ℚ) := by
      exact_mod_cast hcnt
    linarith

theorem length_filter_year_split (parse : String → Int) (Y now : Int) (hY : Y ≤ now)
    (l : List ReleaseRecord) :
    (l.filter (fun r => Y < parse r.date)).length =
      (l.filter (fun r => Y < parse r.date ∧ parse r.date ≤ now)).length +
      (l.filter (fun r => now < parse r.date)).length := by
  induction l with
  | nil => simp
  | cons x xs ih =>
    by_cases h1 : Y < parse x.date
    · by_cases h2 : parse x.date ≤ now
      · have h3 : ¬ now < parse x.date := not_lt.2 h2
        simp [List.filter_cons, h1, h2, h3, ih]
        omega
      · have h3 : now < parse x.date := not_le.1 h2
        simp [List.filter_cons, h1, h2, h3, ih]
        omega
    · have h2 : ¬ (Y < parse x.date ∧ parse x.date ≤ now) := fun hc => h1 hc.1
      have h3 : ¬ now < parse x.date := fun hc => h1 (lt_of_le_of_lt hY hc)
      simp [List.filter_cons, h1, h2, h3, ih]

theorem filter_future_eq (parse : String → Int) (now : Int)
    {A B : List ReleaseRecord}
    (hout : A.filter (fun r => ¬(now - msPerYear < parse r.date ∧ parse r.date ≤ now)) =
            B.filter (fun r => ¬(now - msPerYear < parse r.date ∧ parse r.date ≤ now))) :
    A.filter (fun r => now < parse r.date) = B.filter (fun r => now < parse r.date) := by
  have key : ∀ l : List ReleaseRecord,
      l.filter (fun r => now < parse r.date) =
        (l.filter (fun r => ¬(now - msPerYear < parse r.date ∧ parse r.date ≤ now))).filter
          (fun r => now < parse r.date) := by
    intro l
    rw [List.filter_filter]
    apply List.filter_congr
    intro r _
    by_cases hr : now < parse r.date
    · have hnt : ¬(now - msPerYear < parse r.date ∧ parse r.date ≤ now) :=
        fun hc => absurd hc.2 (not_le.2 hr)
      simp [hr, hnt]
    · simp [hr]
  rw [key A, key B, hout]

/-- C1 (counterexample): the claim "the maintenance score is in [0,100] for
every release history and every current instant" is false: a history whose
first record is dated 100 months after the current instant yields a score
above 100, because `recencyScore = max(0, 50 - months * 2)` is unclamped
from above when `monthsSinceLastRelease` is negative. -/
theorem C1_counterexample :
    100 < calculateMaintenanceScore tsTable 0
      [{ version := "9.9.9", date := "in100Months" }] := by
  simp [calculateMaintenanceScore, tsTable, msPerMonth, msPerYear, List.filter_cons]
  norm_num [jsRound, Rat.floor_def']

/-- C1 (amended): for every release history whose first (most recent)
record, if any, has a parsed timestamp not after the current instant, the
maintenance score returned by `calculateMaintenanceScore` is an integer in
[0,100]; this includes the empty history. -/
theorem C1_amended_score_bounds (parse : String → Int) (now : Int)
    (hist : List ReleaseRecord)
    (h : ∀ r ∈ hist.head?, parse r.date ≤ now) :
    0 ≤ calculateMaintenanceScore parse now hist ∧
      calculateMaintenanceScore parse now hist ≤ 100 := by
  cases hist with
  | nil => simp [calculateMaintenanceScore]
  | cons first rest =>
    have hfirst : parse first.date ≤ now := h first (by simp)
    have hM : (0 : ℚ) < (msPerMonth : ℚ) := by exact_mod_cast msPerMonth_pos
    have hm : (0 : ℚ) ≤ ((now - parse first.date : Int) : ℚ) / (msPerMonth : ℚ) := by
      apply div_nonneg _ (le_of_lt hM)
      exact_mod_cast sub_nonneg.2 hfirst
    rw [calculateMaintenanceScore_cons]
    constructor
    · apply jsRound_nonneg
      have h1 : (0 : ℚ) ≤ max 0 (50 - ((now - parse first.date : Int) : ℚ) /
          (msPerMonth : ℚ) * 2) := le_max_left _ _
      have h2 : (0 : ℚ) ≤ min 50 ((((first :: rest).filter
          (fun r => now - msPerYear < parse r.date)).length : ℚ) * 5) :=
        le_min (by norm_num) (by positivity)
      linarith
    · apply jsRound_le_100
      have h1 : max 0 (50 - ((now - parse first.date : Int) : ℚ) /
          (msPerMonth : ℚ) * 2) ≤ 50 := max_le (by norm_num) (by linarith)
      have h2 : min 50 ((((first :: rest).filter
          (fun r => now - msPerYear < parse r.date)).length : ℚ) * 5) ≤ 50 :=
        min_le_left _ _
      linarith

/-- C1 (witness): the amended bound at a concrete input, a single release
thirty days before the current instant. -/
theorem C1_witness :
    0 ≤ calculateMaintenanceScore tsTable 0 [{ version := "1.0.0", date := "daysAgo30" }] ∧
      calculateMaintenanceScore tsTable 0 [{ version := "1.0.0", date := "daysAgo30" }] ≤ 100 :=
  C1_amended_score_bounds tsTable 0 _ (by simp [tsTable])

/-- C2: for a non-empty history sorted descending by parsed timestamp, the
score equals `round(max(0, 50 - m * 2) + min(50, r * 5))`, where `m` is
(now - timestamp of the first record) divided by 30 days and `r` counts the
records with timestamp strictly greater than now - 365 days. -/
theorem C2_score_formula (parse : String → Int) (now : Int)
    (first : ReleaseRecord) (rest : List ReleaseRecord)
    (_hsorted : sortedDescending parse (first :: rest)) :
    calculateMaintenanceScore parse now (first :: rest) =
      jsRound (max 0 (50 - specMonthsSinceLastRelease now (parse first.date) * 2) +
        min 50 ((specReleasesLastYear parse now (first :: rest) : ℚ) * 5)) := by
  rw [calculateMaintenanceScore_cons]
  norm_num [specMonthsSinceLastRelease, specReleasesLastYear, msPerMonth, msPerYear]

/-- C2 (witness): the formula at a concrete one-element sorted history. -/
theorem C2_witness :
    calculateMaintenanceScore tsTable 0 [{ version := "1.0.0", date := "daysAgo30" }] =
      jsRound (max 0 (50 - specMonthsSinceLastRelease 0 (tsTable "daysAgo30") * 2) +
        min 50 ((specReleasesLastYear tsTable 0
          [{ version := "1.0.0", date := "daysAgo30" }] : ℚ) * 5)) :=
  C2_score_formula tsTable 0 _ _ (by simp [sortedDescending])

/-- C3: the empty history scores 0 and is labelled "Poorly maintained", and
the scorer is total: it yields a defined integer for every history. -/
theorem C3_empty_history_total (parse : String → Int) (now : Int) :
    calculateMaintenanceScore parse now [] = 0 ∧
      getMaintenanceStatus (calculateMaintenanceScore parse now []) = "Poorly maintained" ∧
      ∀ hist : List ReleaseRecord, ∃ n : Int, calculateMaintenanceScore parse now hist = n := by
  refine ⟨rfl, ?_, fun hist => ⟨_, rfl⟩⟩
  simp [calculateMaintenanceScore, getMaintenanceStatus]

/-- C4: with the current instant fixed, making the first (most recent)
record's timestamp more recent while keeping every other record equal never
decreases the score. -/
theorem C4_recency_monotone (parse : String → Int) (now : Int) (v da db : String)
    (rest : List ReleaseRecord) (h : parse db < parse da) :
    calculateMaintenanceScore parse now ({ version := v, date := db } :: rest) ≤
      calculateMaintenanceScore parse now ({ version := v, date := da } :: rest) := by
  apply score_le_score
  · exact le_of_lt h
  · by_cases hb : now - msPerYear < parse db
    · have ha : now - msPerYear < parse da := lt_trans hb h
      simp [List.filter_cons, hb, ha]
    · by_cases ha : now - msPerYear < parse da
      · simp [List.filter_cons, hb, ha]
      · simp [List.filter_cons, hb, ha]

/-- C4 (witness): a release sixty days old scores at most a release thirty
days old, all else equal. -/
theorem C4_witness :
    calculateMaintenanceScore tsTable 0 [{ version := "2.0.0", date := "daysAgo60" }] ≤
      calculateMaintenanceScore tsTable 0 [{ version := "2.0.0", date := "daysAgo30" }] :=
  C4_recency_monotone tsTable 0 "2.0.0" "daysAgo30" "daysAgo60" [] (by simp [tsTable])

/-- C5: with the current instant fixed, if histories A and B have first
records with equal parsed timestamps, agree on the records outside the
trailing year (now - 365 days, now], and A has at least as many records
inside the trailing year as B, then A scores at least B. -/
theorem C5_frequency_monotone (parse : String → Int) (now : Int)
    (a b : ReleaseRecord) (ra rb : List ReleaseRecord)
    (hhead : parse a.date = parse b.date)
    (hout : (a :: ra).filter (fun r => ¬(now - msPerYear < parse r.date ∧ parse r.date ≤ now)) =
            (b :: rb).filter (fun r => ¬(now - msPerYear < parse r.date ∧ parse r.date ≤ now)))
    (hcount : ((b :: rb).filter
        (fun r => now - msPerYear < parse r.date ∧ parse r.date ≤ now)).length ≤
      ((a :: ra).filter
        (fun r => now - msPerYear < parse r.date ∧ parse r.date ≤ now)).length) :
    calculateMaintenanceScore parse now (b :: rb) ≤
      calculateMaintenanceScore parse now (a :: ra) := by
  have hY : now - msPerYear ≤ now := by
    have := msPerYear_pos
    omega
  apply score_le_score parse now a b ra rb (le_of_eq hhead.symm)
  rw [length_filter_year_split parse (now - msPerYear) now hY,
    length_filter_year_split parse (now - msPerYear) now hY]
  have hfut := congrArg List.length (filter_future_eq parse now hout)
  omega

/-- C5 (witness): the bound at concrete histories; A has two releases in the
trailing year, B only the shared one. -/
theorem C5_witness :
    calculateMaintenanceScore tsTable 0 [{ version := "1.1", date := "daysAgo1" }] ≤
      calculateMaintenanceScore tsTable 0
        [{ version := "1.1", date := "daysAgo1" }, { version := "1.0", date := "daysAgo2" }] :=
  C5_frequency_monotone tsTable 0
    { version := "1.1", date := "daysAgo1" } { version := "1.1", date := "daysAgo1" }
    [{ version := "1.0", date := "daysAgo2" }] [] rfl
    (by simp [tsTable, msPerYear, List.filter_cons])
    (by simp [tsTable, msPerYear, List.filter_cons])

/-- C6: the status mapping is the top-down threshold table: "Actively
maintained" iff score ≥ 80, "Regularly maintained" iff 60 ≤ score < 80,
"Occasionally maintained" iff 40 ≤ score < 60, "Minimally maintained" iff
20 ≤ score < 40, and "Poorly maintained" iff score < 20. -/
theorem C6_status_thresholds (score : Int) :
    ((getMaintenanceStatus score = "Actively maintained") ↔ 80 ≤ score) ∧
      ((getMaintenanceStatus score = "Regularly maintained") ↔ 60 ≤ score ∧ score < 80) ∧
      ((getMaintenanceStatus score = "Occasionally maintained") ↔ 40 ≤ score ∧ score < 60) ∧
      ((getMaintenanceStatus score = "Minimally maintained") ↔ 20 ≤ score ∧ score < 40) ∧
      ((getMaintenanceStatus score = "Poorly maintained") ↔ score < 20) := by
  unfold getMaintenanceStatus
  split_ifs <;> simp_all <;> omega

/-- C8: the scorer followed by the status mapping is deterministic: equal
histories and equal current instants give identical (score, label) pairs;
the embedding is a pure function, so there is no state to affect. -/
theorem C8_deterministic (parse : String → Int) (now1 now2 : Int)
    (h1 h2 : List ReleaseRecord) (hnow : now1 = now2) (hhist : h1 = h2) :
    scoreAndStatus parse now1 h1 = scoreAndStatus parse now2 h2 := by
  subst hnow
  subst hhist
  rfl

/-- C8 (witness): two invocations on the same concrete history and instant
agree. -/
theorem C8_witness :
    scoreAndStatus tsTable 0 histRegular = scoreAndStatus tsTable 0 histRegular :=
  C8_deterministic tsTable 0 0 histRegular histRegular rfl rfl

/-- C7: the spec's four concrete cases, at current instant 0 with symbolic
dates resolved by `tsTable`.  The fourth case ("most recent release 13
months ago, 1 release in the trailing year") is realised by `histMinimal`,
whose record in position 0 — the record the code treats as the most recent
release — is 390 days old while its other record lies inside the trailing
year. -/
theorem C7_concrete_cases :
    (calculateMaintenanceScore tsTable 0 histActive = 100 ∧
      getMaintenanceStatus (calculateMaintenanceScore tsTable 0 histActive) =
        "Actively maintained") ∧
    (calculateMaintenanceScore tsTable 0 histStale = 0 ∧
      getMaintenanceStatus (calculateMaintenanceScore tsTable 0 histStale) =
        "Poorly maintained") ∧
    (calculateMaintenanceScore tsTable 0 histRegular = 63 ∧
      getMaintenanceStatus (calculateMaintenanceScore tsTable 0 histRegular) =
        "Regularly maintained") ∧
    (calculateMaintenanceScore tsTable 0 histMinimal = 29 ∧
      getMaintenanceStatus (calculateMaintenanceScore tsTable 0 histMinimal) =
        "Minimally maintained") := by
  have h1 : calculateMaintenanceScore tsTable 0 histActive = 100 := by
    simp [calculateMaintenanceScore, histActive, tsTable, msPerMonth, msPerYear,
      List.filter_cons]
    norm_num [jsRound, Rat.floor_def']
  have h2 : calculateMaintenanceScore tsTable 0 histStale = 0 := by
    simp [calculateMaintenanceScore, histStale, tsTable, msPerMonth, msPerYear,
      List.filter_cons]
    norm_num [jsRound, Rat.floor_def']
  have h3 : calculateMaintenanceScore tsTable 0 histRegular = 63 := by
    simp [calculateMaintenanceScore, histRegular, tsTable, msPerMonth, msPerYear,
      List.filter_cons]
    norm_num [jsRound, Rat.floor_def']
  have h4 : calculateMaintenanceScore tsTable 0 histMinimal = 29 := by
    simp [calculateMaintenanceScore, histMinimal, tsTable, msPerMonth, msPerYear,
      List.filter_cons]
    norm_num [jsRound, Rat.floor_def']
  refine ⟨⟨h1, ?_⟩, ⟨h2, ?_⟩, ⟨h3, ?_⟩, ⟨h4, ?_⟩⟩ <;>
    simp [h1, h2, h3, h4, getMaintenanceStatus]

/-- C9: the release history built by `getPackageDetails` contains exactly
one record per (version, upload time) release-file pair — it is a
permutation of the flattened per-version file lists, with no deduplication
by version — and is sorted descending by parsed timestamp. -/
theorem C9_flatten_and_sort (parse : String → Int)
    (releases : List (String × List FileInfo)) :
    (buildReleaseHistory parse releases).Perm
        (releases.flatMap (fun p =>
          p.2.map (fun release => { version := p.1, date := release.upload_time }))) ∧
      (buildReleaseHistory parse releases).Pairwise
        (fun a b => parse b.date ≤ parse a.date) := by
  refine ⟨List.mergeSort_perm _ _, ?_⟩
  have h := @List.sorted_mergeSort ReleaseRecord
    (fun a b => decide (parse b.date ≤ parse a.date))
    (fun a b c hab hbc =>
      decide_eq_true (le_trans (of_decide_eq_true hbc) (of_decide_eq_true hab)))
    (fun a b => by
      rcases Int.le_total (parse b.date) (parse a.date) with h | h <;> simp [h])
    (releases.flatMap (fun p =>
      p.2.map (fun release => { version := p.1, date := release.upload_time })))
  exact h.imp (fun hab => of_decide_eq_true hab)

/-- C10: the `releaseHistory` field of the returned `PackageDetails` is the
first ten records of the full sorted history (hence at most ten records),
`maintenanceScore` is computed from the full untruncated history, and an
empty release list yields `lastRelease = "No releases found"`. -/
theorem C10_truncation_full_score (parse : String → Int) (now : Int)
    (info : PyPIPackageInfo) :
    (getPackageDetails parse now info).releaseHistory =
        (buildReleaseHistory parse info.releases).take 10 ∧
      (getPackageDetails parse now info).releaseHistory.length ≤ 10 ∧
      (getPackageDetails parse now info).maintenanceScore =
        calculateMaintenanceScore parse now (buildReleaseHistory parse info.releases) ∧
      (buildReleaseHistory parse info.releases = [] →
        (getPackageDetails parse now info).lastRelease = "No releases found") := by
  refine ⟨rfl, ?_, rfl, ?_⟩
  · have htake : (getPackageDetails parse now info).releaseHistory =
        (buildReleaseHistory parse info.releases).take 10 := rfl
    rw [htake, List.length_take]
    exact Nat.min_le_left _ _
  · intro hempty
    simp [getPackageDetails, hempty]

/-- C10 (witness): an empty registry release list gives the fallback
`lastRelease` string and a truncated history of at most ten records. -/
theorem C10_witness :
    (getPackageDetails tsTable 0 infoEmpty).lastRelease = "No releases found" ∧
      (getPackageDetails tsTable 0 infoEmpty).releaseHistory.length ≤ 10 :=
  ⟨(C10_truncation_full_score tsTable 0 infoEmpty).2.2.2
      (by simp [buildReleaseHistory, infoEmpty]),
    (C10_truncation_full_score tsTable 0 infoEmpty).2.1⟩

end PyPISearch
